import Mathlib

/-!
Formal model of the alertmanager-to-gchat webhook bridge.

The Go sources are shallowly embedded: Go maps become association lists
(keys unique), `time.Time` values are represented by their RFC 3339
rendering, byte slices by `String`, and the fallible effects of a request
(body read, JSON decoding, provider delivery) are passed in explicitly so
that the handler's control flow is a pure function of them.  Metric
side effects (counter increments, histogram observations) are returned as
data in the result records.
-/

set_option linter.all false

namespace GChat

/-- Element of `AlertManagerPayload.alerts` (struct `Alert`, main.go).
`startsAt`/`endsAt` hold the RFC 3339 rendering of the Go `time.Time`,
so `alert.StartsAt.Format(time.RFC3339)` is modelled by `startsAt` itself. -/
structure Alert where
  status : String
  labels : List (String × String)
  annotations : List (String × String)
  startsAt : String
  endsAt : String
  generatorURL : String
  fingerprint : String
deriving DecidableEq, Repr

/-- Inbound batch (struct `AlertManagerPayload`, main.go). -/
structure AlertManagerPayload where
  receiver : String
  status : String
  alerts : List Alert
  groupLabels : List (String × String)
  commonLabels : List (String × String)
  commonAnnotations : List (String × String)
  externalURL : String
deriving DecidableEq, Repr

/-- Outbound chat structures (main.go). -/
structure TextParagraph where
  text : String
deriving DecidableEq, Repr

structure KeyValue where
  topLabel : String
  content : String
  contentMultiline : Bool
  bottomLabel : String
  icon : String
deriving DecidableEq, Repr

structure OpenLink where
  url : String
deriving DecidableEq, Repr

structure OnClickAction where
  openLink : Option OpenLink
deriving DecidableEq, Repr

structure TextButton where
  text : String
  onClick : Option OnClickAction
deriving DecidableEq, Repr

structure Button where
  textButton : Option TextButton
deriving DecidableEq, Repr

/-- Go struct `Widget`: three optional variants, at most one populated. -/
structure Widget where
  textParagraph : Option TextParagraph
  keyValue : Option KeyValue
  buttons : List Button
deriving DecidableEq, Repr

structure CardSection where
  header : String
  widgets : List Widget
deriving DecidableEq, Repr

structure CardHeader where
  title : String
  subtitle : String
deriving DecidableEq, Repr

structure Card where
  header : Option CardHeader
  sections : List CardSection
deriving DecidableEq, Repr

structure GoogleChatMessage where
  text : String
  cards : List Card
deriving DecidableEq, Repr

instance : Inhabited Card :=
  ⟨{ header := none, sections := [] }⟩

/-- Go `getStatusIcon` (main.go lines 479-488): a `switch` on the status
string returning the Google Chat built-in icon name. -/
def getStatusIcon (status : String) : String :=
  if status = "firing" then "STAR"
  else if status = "resolved" then "EMAIL"
  else "DESCRIPTION"

/-- Go `getAlertName` (main.go lines 467-477): `commonLabels["alertname"]`,
else the first alert's `labels["alertname"]`, else `"Unknown Alert"`. -/
def getAlertName (alertPayload : AlertManagerPayload) : String :=
  match alertPayload.commonLabels.lookup "alertname" with
  | some alertName => alertName
  | none =>
    match alertPayload.alerts with
    | [] => "Unknown Alert"
    | firstAlert :: _ =>
      match firstAlert.labels.lookup "alertname" with
      | some alertName => alertName
      | none => "Unknown Alert"

/-- Go `formatMapAsList` (main.go lines 459-465): renders each key/value
pair as a bulleted line.  The Go map iteration order is unspecified; the
association list's order stands in for one such order. -/
def formatMapAsList (data : List (String × String)) : String :=
  data.foldl (fun acc kv => acc ++ "• " ++ kv.1 ++ ": " ++ kv.2 ++ "\n") ""

/-- Validation errors produced by `validateAlertPayload` (main.go lines
288-307), one constructor per distinct `fmt.Errorf` site, carrying the
0-based alert index where the Go error message reports one. -/
inductive ValidationError where
  | missingStatus
  | emptyAlerts
  | alertMissingStatus (index : Nat)
  | alertMissingLabels (index : Nat)
deriving DecidableEq, Repr

/-- The `for i, alert := range payload.Alerts` loop of `validateAlertPayload`:
first failing alert wins, status checked before labels. -/
def validateAlerts : Nat → List Alert → Option ValidationError
  | _, [] => none
  | i, alert :: rest =>
    if alert.status = "" then some (.alertMissingStatus i)
    else if alert.labels = [] then some (.alertMissingLabels i)
    else validateAlerts (i + 1) rest

/-- Go `validateAlertPayload` (main.go lines 288-307).  Returns `none` on
success, mirroring a `nil` error. -/
def validateAlertPayload (payload : AlertManagerPayload) : Option ValidationError :=
  if payload.status = "" then some .missingStatus
  else if payload.alerts = [] then some .emptyAlerts
  else validateAlerts 0 payload.alerts

/-- Go `createSummarySection` (main.go lines 341-378): a "Summary" section
whose first widget is always the Status key-value with `getStatusIcon`;
"Common Labels" / "Common Annotations" key-values are appended only when
the corresponding map is non-empty. -/
def createSummarySection (alertPayload : AlertManagerPayload) : CardSection :=
  { header := "Summary"
    widgets :=
      [⟨none, some ⟨"Status", alertPayload.status, false, "",
          getStatusIcon alertPayload.status⟩, []⟩] ++
      (if alertPayload.commonLabels.length > 0 then
        [⟨none, some ⟨"Common Labels", formatMapAsList alertPayload.commonLabels,
            true, "", ""⟩, []⟩]
      else []) ++
      (if alertPayload.commonAnnotations.length > 0 then
        [⟨none, some ⟨"Common Annotations",
            formatMapAsList alertPayload.commonAnnotations, true, "", ""⟩, []⟩]
      else []) }

/-- Go `createAlertSection` (main.go lines 380-436): header `"Alert #<i>"`,
an optional text paragraph from `annotations["description"]` (else
`annotations["summary"]`), an optional "Labels" key-value, the mandatory
"Started" key-value, and an optional "View in Prometheus" button row. -/
def createAlertSection (alertIndex : Nat) (alert : Alert) : CardSection :=
  { header := "Alert #" ++ toString alertIndex
    widgets :=
      (match alert.annotations.lookup "description" with
       | some description => [⟨some ⟨description⟩, none, []⟩]
       | none =>
         match alert.annotations.lookup "summary" with
         | some summary => [⟨some ⟨summary⟩, none, []⟩]
         | none => []) ++
      (if alert.labels.length > 0 then
        [⟨none, some ⟨"Labels", formatMapAsList alert.labels, true, "", ""⟩, []⟩]
      else []) ++
      [⟨none, some ⟨"Started", alert.startsAt, false, "", ""⟩, []⟩] ++
      (if alert.generatorURL ≠ "" then
        [⟨none, none, [⟨some ⟨"View in Prometheus",
            some ⟨some ⟨alert.generatorURL⟩⟩⟩⟩]⟩]
      else []) }

/-- Go `createExternalURLSection` (main.go lines 438-457): a headerless
section holding one "View in AlertManager" button row. -/
def createExternalURLSection (externalURL : String) : CardSection :=
  { header := ""
    widgets := [⟨none, none, [⟨some ⟨"View in AlertManager",
        some ⟨some ⟨externalURL⟩⟩⟩⟩]⟩] }

/-- The `for i, alert := range alertPayload.Alerts` loop of
`convertToGoogleChatFormat`, which calls `createAlertSection(i+1, alert)`:
`alertSectionsFrom k l` produces the sections for alerts `l` where the
first one gets index `k` (the loop uses `k = 1`). -/
def alertSectionsFrom : Nat → List Alert → List CardSection
  | _, [] => []
  | k, alert :: rest => createAlertSection k alert :: alertSectionsFrom (k + 1) rest

/-- Go `strings.ToUpper` restricted to the alphabet that actually occurs
in alert statuses: uppercases each character (`Char.toUpper` handles the
ASCII range, which covers "firing"/"resolved"/other status words). -/
def goToUpper (s : String) : String :=
  ⟨s.data.map Char.toUpper⟩

/-- Go `convertToGoogleChatFormat` (main.go lines 309-339): the pure
transformer from a batch to the chat message. -/
def convertToGoogleChatFormat (alertPayload : AlertManagerPayload) : GoogleChatMessage :=
  let statusText := goToUpper alertPayload.status
  let alertName := getAlertName alertPayload
  { text := statusText ++ " Alert: " ++ alertName ++ " (" ++
      toString alertPayload.alerts.length ++ " alerts)"
    cards :=
      [{ header := some ⟨statusText ++ " Alert: " ++ alertName,
           toString alertPayload.alerts.length ++ " alert(s)"⟩
         sections :=
           createSummarySection alertPayload ::
           alertSectionsFrom 1 alertPayload.alerts ++
           (if alertPayload.externalURL ≠ "" then
             [createExternalURLSection alertPayload.externalURL]
           else []) }] }

/-- Character-list core of Go `strings.Contains(s, substr)`: scans the
haystack left to right testing `substr` as a prefix at each position. -/
def containsAux (pat : List Char) : List Char → Bool
  | [] => pat.isEmpty
  | c :: rest => pat.isPrefixOf (c :: rest) || containsAux pat rest

/-- Go `strings.Contains(s, sub)`: `sub` occurs as a substring of `s`. -/
def goStringContains (s sub : String) : Bool :=
  containsAux sub.data s.data

/-- Outcome of the single `sharedHTTPClient.Do(req)` call inside
`GoogleChatProvider.Send`: either a transport-level failure, or an HTTP
response with its status code and the best-effort body read
(`none` models a failed `io.ReadAll(resp.Body)`, which the Go code
ignores, leaving an empty body string). -/
inductive HttpAttemptResult where
  | transportError (cause : String)
  | response (statusCode : Nat) (bodyRead : Option String)
deriving DecidableEq, Repr

/-- Delivery errors of `GoogleChatProvider.Send`, one constructor per
`fmt.Errorf` site actually reachable in the model (marshalling the total
`GoogleChatMessage` data model and building the request cannot fail). -/
inductive SendError where
  | transport (cause : String)
  | remoteRejected (status : Nat) (body : String)
deriving DecidableEq, Repr

/-- Metric and I/O side effects of one `GoogleChatProvider.Send` call:
how many HTTP attempts were issued, how many observations the deferred
`providerRequestDuration` timer recorded, how many times `providerErrors`
was incremented, and the labels passed to `alertsSent.WithLabelValues`. -/
structure SendEffects where
  httpAttempts : Nat
  latencyObs : Nat
  providerErrorIncs : Nat
  sentIncs : List String
deriving DecidableEq, Repr

structure GoogleChatProvider where
  webhookURL : String
deriving DecidableEq, Repr

/-- Go `GoogleChatProvider.Send` (provider file): issues exactly one HTTP
POST of the marshalled message; `>= 300` responses become a
`remoteRejected` error carrying status and best-effort body, transport
failures become a `transport` error, and a `< 300` response is success,
incrementing `alertsSent` labelled with the message text.  The deferred
latency timer observes once on every path. -/
def GoogleChatProvider.Send (_g : GoogleChatProvider) (message : GoogleChatMessage)
    (attempt : HttpAttemptResult) : Except SendError Unit × SendEffects :=
  match attempt with
  | .transportError cause =>
    (.error (.transport cause), ⟨1, 1, 1, []⟩)
  | .response statusCode bodyRead =>
    if 300 ≤ statusCode then
      (.error (.remoteRejected statusCode (bodyRead.getD "")), ⟨1, 1, 1, []⟩)
    else
      (.ok (), ⟨1, 1, 0, [message.text]⟩)

/-- One inbound HTTP request as the webhook handler observes it:
the method, the raw `Content-Type` header (`none` when absent;
`r.Header.Get` then yields `""`), and the result of `io.ReadAll(r.Body)`
(`Except.error` models a body-read I/O failure). -/
structure HttpRequest where
  method : String
  contentType : Option String
  bodyResult : Except String String

/-- Everything `handleWebhookWithProvider` does that a caller or test can
observe: the HTTP status and body written, the messages passed to
`provider.Send`, the labels passed to `alertsReceived.WithLabelValues`,
the number of observations made to the `alertProcessingDuration`
histogram, and whether `io.ReadAll(r.Body)` was invoked. -/
structure HandlerOutcome where
  statusCode : Nat
  responseBody : String
  sendCalls : List GoogleChatMessage
  receivedIncs : List String
  processingObs : Nat
  bodyReads : Nat
deriving Repr

/-- Go `handleWebhookWithProvider` (main.go lines 219-286), parameterized
by the JSON decoder (`decode body = none` models a `json.Unmarshal`
failure) and by the provider's result for this invocation.  `http.Error`
appends a newline to its message; `fmt.Fprintf` on success does not.
The function mirrors the source line by line; in particular no branch
observes the `alertProcessingDuration` histogram, because the Go handler
never references it. -/
def handleWebhookWithProvider (decode : String → Option AlertManagerPayload)
    (send : GoogleChatMessage → Except String Unit)
    (req : HttpRequest) : HandlerOutcome :=
  if req.method ≠ "POST" then
    ⟨405, "Method not allowed\n", [], [], 0, 0⟩
  else if goStringContains (req.contentType.getD "") "application/json" = false then
    ⟨400, "Content-Type must be application/json\n", [], [], 0, 0⟩
  else
    match req.bodyResult with
    | .error _ => ⟨500, "Error reading request body\n", [], [], 0, 1⟩
    | .ok body =>
      if body = "" then
        ⟨400, "Empty request body\n", [], [], 0, 1⟩
      else
        match decode body with
        | none => ⟨400, "Error parsing AlertManager payload\n", [], [], 0, 1⟩
        | some alertPayload =>
          match validateAlertPayload alertPayload with
          | some _ => ⟨400, "Invalid alert payload\n", [], [], 0, 1⟩
          | none =>
            let chatMessage := convertToGoogleChatFormat alertPayload
            match send chatMessage with
            | .error _ =>
              ⟨500, "Error sending to Google Chat\n", [chatMessage],
                [alertPayload.status], 0, 1⟩
            | .ok _ =>
              ⟨200, "Alert processed successfully", [chatMessage],
                [alertPayload.status], 0, 1⟩

/-! Concrete fixtures: the batch of spec Scenario A, a parseable batch
with an empty alert list, and handler parameters built from them. -/

def scenarioAAlert : Alert :=
  ⟨"firing", [("alertname", "HighCPU")], [], "2024-01-15T10:30:00Z", "", "", ""⟩

def scenarioABatch : AlertManagerPayload :=
  ⟨"", "firing", [scenarioAAlert], [], [], [], ""⟩

def emptyAlertsBatch : AlertManagerPayload :=
  ⟨"", "firing", [], [], [], [], ""⟩

def decodeToScenarioA : String → Option AlertManagerPayload :=
  fun _ => some scenarioABatch

def decodeToEmptyAlerts : String → Option AlertManagerPayload :=
  fun _ => some emptyAlertsBatch

def sendAlwaysOk : GoogleChatMessage → Except String Unit :=
  fun _ => .ok ()

def jsonRequest : HttpRequest :=
  ⟨"POST", some "application/json", .ok "\x7b\x7d"⟩

end GChat

namespace GChat

/-- Unfolding lemma: `validateAlerts` on a cons. -/
theorem validateAlerts_cons (i : Nat) (alert : Alert) (rest : List Alert) :
    validateAlerts i (alert :: rest) =
      if alert.status = "" then some (.alertMissingStatus i)
      else if alert.labels = [] then some (.alertMissingLabels i)
      else validateAlerts (i + 1) rest := rfl

/-- The alert loop succeeds when every alert is well-formed. -/
theorem validateAlerts_eq_none {l : List Alert}
    (h : ∀ a ∈ l, a.status ≠ "" ∧ a.labels ≠ []) :
    ∀ k, validateAlerts k l = none := by
  induction l with
  | nil => intro k; rfl
  | cons hd rest ih =>
    intro k
    have hhd := h hd (List.mem_cons_self hd rest)
    rw [validateAlerts_cons, if_neg hhd.1, if_neg hhd.2]
    exact ih (fun b hb => h b (List.mem_cons_of_mem hd hb)) (k + 1)

/-- The alert loop reports the first bad alert, status before labels,
with its index offset by the loop's starting index. -/
theorem validateAlerts_first_bad {l : List Alert} :
    ∀ k i a, l[i]? = some a →
      (∀ j b, j < i → l[j]? = some b → b.status ≠ "" ∧ b.labels ≠ []) →
      ((a.status = "" → validateAlerts k l = some (.alertMissingStatus (k + i))) ∧
       (a.status ≠ "" → a.labels = [] →
         validateAlerts k l = some (.alertMissingLabels (k + i)))) := by
  induction l with
  | nil => intro k i a hget _; simp at hget
  | cons hd rest ih =>
    intro k i a hget hgood
    cases i with
    | zero =>
      have ha : hd = a := by simpa using hget
      subst ha
      refine ⟨fun hs => ?_, fun hs hl => ?_⟩
      · rw [validateAlerts_cons, if_pos hs, Nat.add_zero]
      · rw [validateAlerts_cons, if_neg hs, if_pos hl, Nat.add_zero]
    | succ i =>
      have hhd : hd.status ≠ "" ∧ hd.labels ≠ [] :=
        hgood 0 hd (Nat.succ_pos i) (by simp)
      have hrest := ih (k + 1) i a (by simpa using hget)
        (fun j b hj hb => hgood (j + 1) b (Nat.succ_lt_succ hj) (by simpa using hb))
      have hidx : k + 1 + i = k + (i + 1) := by omega
      refine ⟨fun hs => ?_, fun hs hl => ?_⟩
      · rw [validateAlerts_cons, if_neg hhd.1, if_neg hhd.2, hrest.1 hs, hidx]
      · rw [validateAlerts_cons, if_neg hhd.1, if_neg hhd.2, hrest.2 hs hl, hidx]

/-- C5: `validateAlertPayload` checks its rules in a fixed order with the
first failure winning — empty batch status, then empty alert list, then
the alerts by increasing index (empty status before empty labels, the
0-based index reported) — and succeeds on every batch with non-empty
status, at least one alert, and all alerts having non-empty status and
non-empty labels.  As a pure function it mutates nothing. -/
theorem validateAlertPayload_order (p : AlertManagerPayload) :
    (p.status = "" → validateAlertPayload p = some .missingStatus) ∧
    (p.status ≠ "" → p.alerts = [] → validateAlertPayload p = some .emptyAlerts) ∧
    (∀ i a, p.status ≠ "" → p.alerts[i]? = some a →
      (∀ j b, j < i → p.alerts[j]? = some b → b.status ≠ "" ∧ b.labels ≠ []) →
      ((a.status = "" → validateAlertPayload p = some (.alertMissingStatus i)) ∧
       (a.status ≠ "" → a.labels = [] →
         validateAlertPayload p = some (.alertMissingLabels i)))) ∧
    (p.status ≠ "" → p.alerts ≠ [] →
      (∀ a ∈ p.alerts, a.status ≠ "" ∧ a.labels ≠ []) →
      validateAlertPayload p = none) := by
  refine ⟨fun hs => ?_, fun hs hn => ?_, fun i a hs hget hgood => ?_, fun hs hn hall => ?_⟩
  · rw [validateAlertPayload, if_pos hs]
  · rw [validateAlertPayload, if_neg hs, if_pos hn]
  · have hne : p.alerts ≠ [] := by
      intro hnil
      rw [hnil] at hget
      simp at hget
    have h0 := validateAlerts_first_bad 0 i a hget hgood
    rw [Nat.zero_add] at h0
    refine ⟨fun h1 => ?_, fun h1 h2 => ?_⟩
    · rw [validateAlertPayload, if_neg hs, if_neg hne, h0.1 h1]
    · rw [validateAlertPayload, if_neg hs, if_neg hne, h0.2 h1 h2]
  · rw [validateAlertPayload, if_neg hs, if_neg hn, validateAlerts_eq_none hall 0]

/-- C5 witness: the Scenario A batch is well-formed and validates. -/
theorem validateAlertPayload_order_witness :
    validateAlertPayload scenarioABatch = none :=
  (validateAlertPayload_order scenarioABatch).2.2.2 (by decide) (by decide)
    (by intro a ha; simp [scenarioABatch, scenarioAAlert] at ha; subst ha; exact ⟨by decide, by decide⟩)

/-- C2 counterexample: `getStatusIcon` maps the status `"resolved"` to
the built-in icon named `"EMAIL"` (an envelope icon), which is not a
check/confirmation-style icon (Google Chat's built-in check/confirmation
icons are named `"CONFIRMATION_NUMBER_ICON"` and `"CHECK_CIRCLE"`). -/
theorem getStatusIcon_resolved_counterexample :
    getStatusIcon "resolved" = "EMAIL" ∧
    "EMAIL" ≠ "CONFIRMATION_NUMBER_ICON" ∧ "EMAIL" ≠ "CHECK_CIRCLE" :=
  ⟨rfl, by decide, by decide⟩

/-- C2 amended: `getStatusIcon` maps `"firing"` to the star icon
`"STAR"`, `"resolved"` to the email icon `"EMAIL"`, and every other
status string to the generic `"DESCRIPTION"` icon; the resulting icon
appears on the Status key-value widget, which is always the first widget
of the Summary section. -/
theorem getStatusIcon_mapping (s : String) (p : AlertManagerPayload) :
    getStatusIcon "firing" = "STAR" ∧
    getStatusIcon "resolved" = "EMAIL" ∧
    (s ≠ "firing" → s ≠ "resolved" → getStatusIcon s = "DESCRIPTION") ∧
    (createSummarySection p).widgets.head? =
      some ⟨none, some ⟨"Status", p.status, false, "", getStatusIcon p.status⟩, []⟩ := by
  refine ⟨rfl, rfl, fun h1 h2 => ?_, rfl⟩
  rw [getStatusIcon, if_neg h1, if_neg h2]

/-- C2 amended witness: an unrecognised status gets the generic icon. -/
theorem getStatusIcon_mapping_witness :
    getStatusIcon "unknown" = "DESCRIPTION" :=
  (getStatusIcon_mapping "unknown" scenarioABatch).2.2.1 (by decide) (by decide)

/-- C6: alert-name derivation precedence — `commonLabels["alertname"]`
first, else the first alert's `labels["alertname"]`, else the literal
`"Unknown Alert"` (also when there is no first alert). -/
theorem getAlertName_precedence (p : AlertManagerPayload) :
    (∀ v, p.commonLabels.lookup "alertname" = some v → getAlertName p = v) ∧
    (∀ a rest v, p.commonLabels.lookup "alertname" = none → p.alerts = a :: rest →
      a.labels.lookup "alertname" = some v → getAlertName p = v) ∧
    (p.commonLabels.lookup "alertname" = none → p.alerts = [] →
      getAlertName p = "Unknown Alert") ∧
    (∀ a rest, p.commonLabels.lookup "alertname" = none → p.alerts = a :: rest →
      a.labels.lookup "alertname" = none → getAlertName p = "Unknown Alert") := by
  refine ⟨fun v h => ?_, fun a rest v h1 h2 h3 => ?_, fun h1 h2 => ?_,
    fun a rest h1 h2 h3 => ?_⟩
  · rw [getAlertName, h]
  · simp only [getAlertName, h1, h2, h3]
  · simp only [getAlertName, h1, h2]
  · simp only [getAlertName, h1, h2, h3]

/-- C6 witness: Scenario A has no common labels, so the name comes from
the first alert's `alertname` label. -/
theorem getAlertName_precedence_witness :
    getAlertName scenarioABatch = "HighCPU" :=
  (getAlertName_precedence scenarioABatch).2.1 scenarioAAlert [] "HighCPU" rfl rfl rfl

/-- C7: the transformed document's text is
`"<STATUS_UPPERCASED> Alert: <alertName> (<N> alerts)"`, the card header
title is `"<STATUS_UPPERCASED> Alert: <alertName>"` with subtitle
`"<N> alert(s)"`, and the Scenario A batch yields exactly
`"FIRING Alert: HighCPU (1 alerts)"`. -/
theorem convertToGoogleChatFormat_text (p : AlertManagerPayload) :
    (convertToGoogleChatFormat p).text =
      goToUpper p.status ++ " Alert: " ++ getAlertName p ++ " (" ++
        toString p.alerts.length ++ " alerts)" ∧
    (convertToGoogleChatFormat p).cards.map Card.header =
      [some ⟨goToUpper p.status ++ " Alert: " ++ getAlertName p,
        toString p.alerts.length ++ " alert(s)"⟩] ∧
    (convertToGoogleChatFormat scenarioABatch).text =
      "FIRING Alert: HighCPU (1 alerts)" :=
  ⟨rfl, rfl, by decide⟩

/-- The scanning check agrees with list-infix occurrence. -/
theorem containsAux_iff (pat : List Char) :
    ∀ l, containsAux pat l = true ↔ pat <:+: l
  | [] => by
    simp [containsAux, List.infix_nil]
  | c :: rest => by
    simp only [containsAux, Bool.or_eq_true, List.isPrefixOf_iff_prefix,
      containsAux_iff pat rest, List.infix_cons_iff]

/-- Go `strings.Contains` agrees with substring occurrence on the
underlying character lists. -/
theorem goStringContains_iff (s sub : String) :
    goStringContains s sub = true ↔ sub.data <:+: s.data :=
  containsAux_iff sub.data s.data

/-- C10: for a POST request, the Content-Type gate passes exactly when
the header value contains `"application/json"` as a substring anywhere
(an absent header is read as `""` and rejected); a failing header yields
400 with the body never read and the provider never called, a passing
header always lets the handler proceed to the body read. -/
theorem contentType_substring_check (decode : String → Option AlertManagerPayload)
    (send : GoogleChatMessage → Except String Unit)
    (ct : Option String) (br : Except String String) :
    (goStringContains (ct.getD "") "application/json" = true ↔
      "application/json".data <:+: (ct.getD "").data) ∧
    (¬ "application/json".data <:+: (ct.getD "").data →
      (handleWebhookWithProvider decode send ⟨"POST", ct, br⟩).statusCode = 400 ∧
      (handleWebhookWithProvider decode send ⟨"POST", ct, br⟩).bodyReads = 0 ∧
      (handleWebhookWithProvider decode send ⟨"POST", ct, br⟩).sendCalls = []) ∧
    ("application/json".data <:+: (ct.getD "").data →
      (handleWebhookWithProvider decode send ⟨"POST", ct, br⟩).bodyReads = 1) := by
  refine ⟨goStringContains_iff _ _, fun hno => ?_, fun hyes => ?_⟩
  · have hfalse : goStringContains (ct.getD "") "application/json" = false := by
      rw [Bool.eq_false_iff]
      intro htrue
      exact hno ((goStringContains_iff _ _).mp htrue)
    simp [handleWebhookWithProvider, hfalse]
  · have htrue : goStringContains (ct.getD "") "application/json" = true :=
      (goStringContains_iff _ _).mpr hyes
    simp only [handleWebhookWithProvider, htrue]
    cases br with
    | error e => simp
    | ok body =>
      by_cases hb : body = ""
      · simp [hb]
      · cases hd : decode body with
        | none => simp [hb, hd]
        | some p =>
          cases hv : validateAlertPayload p with
          | none =>
            cases hs : send (convertToGoogleChatFormat p) with
            | error e => simp [hb, hd, hv, hs]
            | ok u => simp [hb, hd, hv, hs]
          | some e => simp [hb, hd, hv]

/-- C10 witness: a Content-Type with parameters, `"application/json;
charset=utf-8"`, merely contains the substring and is accepted (the body
read proceeds). -/
theorem contentType_substring_check_witness :
    (handleWebhookWithProvider decodeToScenarioA sendAlwaysOk
      ⟨"POST", some "application/json; charset=utf-8", .ok "\x7b\x7d"⟩).bodyReads = 1 :=
  (contentType_substring_check decodeToScenarioA sendAlwaysOk
    (some "application/json; charset=utf-8") (.ok "\x7b\x7d")).2.2 (by decide)

/-- C1: every pre-delivery failure of the webhook handler short-circuits
to its mapped HTTP status — wrong method 405, Content-Type without the
required substring 400, body-read I/O failure 500, empty body 400, JSON
parse failure 400, validation failure 400, delivery failure 500 — and
full success responds 200 with body `"Alert processed successfully"`;
on every path that fails before the delivery step the provider's `Send`
receives zero calls. -/
theorem handler_status_mapping (decode : String → Option AlertManagerPayload)
    (send : GoogleChatMessage → Except String Unit) (req : HttpRequest) :
    (req.method ≠ "POST" →
      (handleWebhookWithProvider decode send req).statusCode = 405 ∧
      (handleWebhookWithProvider decode send req).sendCalls = []) ∧
    (req.method = "POST" →
      goStringContains (req.contentType.getD "") "application/json" = false →
      (handleWebhookWithProvider decode send req).statusCode = 400 ∧
      (handleWebhookWithProvider decode send req).sendCalls = []) ∧
    (∀ e, req.method = "POST" →
      goStringContains (req.contentType.getD "") "application/json" = true →
      req.bodyResult = .error e →
      (handleWebhookWithProvider decode send req).statusCode = 500 ∧
      (handleWebhookWithProvider decode send req).sendCalls = []) ∧
    (req.method = "POST" →
      goStringContains (req.contentType.getD "") "application/json" = true →
      req.bodyResult = .ok "" →
      (handleWebhookWithProvider decode send req).statusCode = 400 ∧
      (handleWebhookWithProvider decode send req).sendCalls = []) ∧
    (∀ body, req.method = "POST" →
      goStringContains (req.contentType.getD "") "application/json" = true →
      req.bodyResult = .ok body → body ≠ "" → decode body = none →
      (handleWebhookWithProvider decode send req).statusCode = 400 ∧
      (handleWebhookWithProvider decode send req).sendCalls = []) ∧
    (∀ body p e, req.method = "POST" →
      goStringContains (req.contentType.getD "") "application/json" = true →
      req.bodyResult = .ok body → body ≠ "" → decode body = some p →
      validateAlertPayload p = some e →
      (handleWebhookWithProvider decode send req).statusCode = 400 ∧
      (handleWebhookWithProvider decode send req).sendCalls = []) ∧
    (∀ body p e, req.method = "POST" →
      goStringContains (req.contentType.getD "") "application/json" = true →
      req.bodyResult = .ok body → body ≠ "" → decode body = some p →
      validateAlertPayload p = none →
      send (convertToGoogleChatFormat p) = .error e →
      (handleWebhookWithProvider decode send req).statusCode = 500) ∧
    (∀ body p, req.method = "POST" →
      goStringContains (req.contentType.getD "") "application/json" = true →
      req.bodyResult = .ok body → body ≠ "" → decode body = some p →
      validateAlertPayload p = none →
      send (convertToGoogleChatFormat p) = .ok () →
      (handleWebhookWithProvider decode send req).statusCode = 200 ∧
      (handleWebhookWithProvider decode send req).responseBody =
        "Alert processed successfully") := by
  obtain ⟨m, ct, br⟩ := req
  refine ⟨fun hm => ?_, fun hm hct => ?_, fun e hm hct hbr => ?_,
    fun hm hct hbr => ?_, fun body hm hct hbr hb hd => ?_,
    fun body p e hm hct hbr hb hd hv => ?_,
    fun body p e hm hct hbr hb hd hv hs => ?_,
    fun body p hm hct hbr hb hd hv hs => ?_⟩ <;>
      first
      | (simp only at hm hct hbr ⊢
         subst hm
         subst hbr
         simp [handleWebhookWithProvider, hct, hb, hd, hv, hs])
      | (simp only at hm hct hbr ⊢
         subst hm
         subst hbr
         simp [handleWebhookWithProvider, hct, hb, hd, hv])
      | (simp only at hm hct hbr ⊢
         subst hm
         subst hbr
         simp [handleWebhookWithProvider, hct, hb, hd])
      | (simp only at hm hct hbr ⊢
         subst hm
         subst hbr
         simp [handleWebhookWithProvider, hct])
      | (simp only at hm hct ⊢
         subst hm
         simp [handleWebhookWithProvider, hct])
      | (simp only at hm ⊢
         simp [handleWebhookWithProvider, hm])

/-- C1 witness: a fully successful POST of the Scenario A batch responds
200 with body `"Alert processed successfully"`. -/
theorem handler_status_mapping_witness :
    (handleWebhookWithProvider decodeToScenarioA sendAlwaysOk jsonRequest).statusCode = 200 ∧
    (handleWebhookWithProvider decodeToScenarioA sendAlwaysOk jsonRequest).responseBody =
      "Alert processed successfully" :=
  (handler_status_mapping decodeToScenarioA sendAlwaysOk jsonRequest).2.2.2.2.2.2.2
    "\x7b\x7d" scenarioABatch rfl (by decide) rfl (by decide) rfl (by decide) rfl

/-- C3 evaluation: the Go handler declares no observation to the
`alertProcessingDuration` histogram — no code path records a per-request
processing latency, not even a fully successful request (the metric is
declared in the metrics file and documented in the README, but
`handleWebhookWithProvider` never references it). -/
theorem handler_no_processing_observation :
    (∀ (decode : String → Option AlertManagerPayload)
       (send : GoogleChatMessage → Except String Unit) (req : HttpRequest),
      (handleWebhookWithProvider decode send req).processingObs = 0) ∧
    (handleWebhookWithProvider decodeToScenarioA sendAlwaysOk jsonRequest).statusCode = 200 ∧
    (handleWebhookWithProvider decodeToScenarioA sendAlwaysOk jsonRequest).processingObs = 0 := by
  refine ⟨fun decode send req => ?_, by decide, by decide⟩
  obtain ⟨m, ct, br⟩ := req
  unfold handleWebhookWithProvider
  repeat' split
  all_goals try rfl
  all_goals dsimp only
  all_goals repeat' split
  all_goals rfl

/-- C4 counterexample: a POST whose body parses successfully into a batch
with an empty alert list reaches the parsed state, yet the
`alertsReceived` counter receives zero increments (the claim requires
exactly one), because the Go handler increments it only after validation
has already succeeded. -/
theorem alertsReceived_parsed_counterexample :
    decodeToEmptyAlerts "\x7b\x7d" = some emptyAlertsBatch ∧
    (handleWebhookWithProvider decodeToEmptyAlerts sendAlwaysOk jsonRequest).statusCode = 400 ∧
    (handleWebhookWithProvider decodeToEmptyAlerts sendAlwaysOk jsonRequest).receivedIncs = [] :=
  ⟨rfl, by decide, by decide⟩

/-- C4 amended: the "batch received" counter labelled with the batch's
status is incremented exactly once for every request that parses AND
passes validation (regardless of the delivery outcome); a request whose
parsed payload fails validation increments it zero times. -/
theorem alertsReceived_after_validation (decode : String → Option AlertManagerPayload)
    (send : GoogleChatMessage → Except String Unit) (req : HttpRequest) :
    ∀ body p, req.method = "POST" →
      goStringContains (req.contentType.getD "") "application/json" = true →
      req.bodyResult = .ok body → body ≠ "" → decode body = some p →
      ((validateAlertPayload p = none →
        (handleWebhookWithProvider decode send req).receivedIncs = [p.status]) ∧
       (∀ e, validateAlertPayload p = some e →
        (handleWebhookWithProvider decode send req).receivedIncs = [])) := by
  obtain ⟨m, ct, br⟩ := req
  intro body p hm hct hbr hb hd
  simp only at hm hct hbr
  subst hm
  subst hbr
  refine ⟨fun hv => ?_, fun e hv => ?_⟩
  · cases hs : send (convertToGoogleChatFormat p) with
    | error err => simp [handleWebhookWithProvider, hct, hb, hd, hv, hs]
    | ok u => simp [handleWebhookWithProvider, hct, hb, hd, hv, hs]
  · simp [handleWebhookWithProvider, hct, hb, hd, hv]

/-- C4 amended witness: the Scenario A batch parses and validates, and
its request increments the counter once with label `"firing"`. -/
theorem alertsReceived_after_validation_witness :
    (handleWebhookWithProvider decodeToScenarioA sendAlwaysOk jsonRequest).receivedIncs =
      ["firing"] :=
  ((alertsReceived_after_validation decodeToScenarioA sendAlwaysOk jsonRequest
    "\x7b\x7d" scenarioABatch rfl (by decide) rfl (by decide) rfl).1 (by decide))

def exampleProvider : GoogleChatProvider :=
  ⟨"https://chat.example/webhook"⟩

/-- C8: `GoogleChatProvider.Send` makes exactly one HTTP attempt per
invocation (no retries); a response with status ≥ 300 yields an error
carrying the status code and the best-effort body read; a response with
status < 300 yields success and records the delivery latency observation
and the sent-counter outcome; a transport-level failure yields an error
carrying the underlying cause. -/
theorem send_single_attempt (g : GoogleChatProvider) (message : GoogleChatMessage)
    (attempt : HttpAttemptResult) :
    ((g.Send message attempt).2.httpAttempts = 1) ∧
    (∀ code bodyRead, attempt = .response code bodyRead → 300 ≤ code →
      (g.Send message attempt).1 =
        .error (.remoteRejected code (bodyRead.getD ""))) ∧
    (∀ code bodyRead, attempt = .response code bodyRead → code < 300 →
      (g.Send message attempt).1 = .ok () ∧
      (g.Send message attempt).2.latencyObs = 1 ∧
      (g.Send message attempt).2.sentIncs = [message.text]) ∧
    (∀ cause, attempt = .transportError cause →
      (g.Send message attempt).1 = .error (.transport cause)) := by
  refine ⟨?_, fun code bodyRead ha hge => ?_, fun code bodyRead ha hlt => ?_,
    fun cause ha => ?_⟩
  · cases attempt with
    | transportError cause => rfl
    | response code bodyRead =>
      by_cases h : 300 ≤ code <;> simp [GoogleChatProvider.Send, h]
  · subst ha
    simp [GoogleChatProvider.Send, hge]
  · subst ha
    have h : ¬ 300 ≤ code := by omega
    simp [GoogleChatProvider.Send, h]
  · subst ha
    rfl

/-- C8 witness: a 200 response is a success that records the latency
observation and the sent increment labelled with the message text. -/
theorem send_single_attempt_witness :
    (exampleProvider.Send (convertToGoogleChatFormat scenarioABatch)
      (.response 200 none)).1 = .ok () ∧
    (exampleProvider.Send (convertToGoogleChatFormat scenarioABatch)
      (.response 200 none)).2.latencyObs = 1 ∧
    (exampleProvider.Send (convertToGoogleChatFormat scenarioABatch)
      (.response 200 none)).2.sentIncs =
      [(convertToGoogleChatFormat scenarioABatch).text] :=
  (send_single_attempt exampleProvider (convertToGoogleChatFormat scenarioABatch)
    (.response 200 none)).2.2.1 200 none rfl (by decide)

/-- Indexing the per-alert sections: the section at position `i` is built
from the alert at position `i`, with the loop's starting index added. -/
theorem alertSectionsFrom_getElem (l : List Alert) :
    ∀ k i, (alertSectionsFrom k l)[i]? =
      (l[i]?).map (fun a => createAlertSection (k + i) a) := by
  induction l with
  | nil => intro k i; simp [alertSectionsFrom]
  | cons hd rest ih =>
    intro k i
    cases i with
    | zero => simp [alertSectionsFrom]
    | succ i =>
      have hidx : k + 1 + i = k + (i + 1) := by omega
      simp only [alertSectionsFrom, List.getElem?_cons_succ, ih (k + 1) i, hidx]

/-- The per-alert sections are in bijection with the alerts. -/
theorem alertSectionsFrom_length (l : List Alert) :
    ∀ k, (alertSectionsFrom k l).length = l.length := by
  induction l with
  | nil => intro k; rfl
  | cons hd rest ih => intro k; simp [alertSectionsFrom, ih (k + 1)]

/-- Every member of the per-alert section list is some alert's section. -/
theorem mem_alertSectionsFrom {s : CardSection} :
    ∀ {k : Nat} {l : List Alert}, s ∈ alertSectionsFrom k l →
      ∃ n a, s = createAlertSection n a := by
  intro k l
  induction l generalizing k with
  | nil => intro h; simp [alertSectionsFrom] at h
  | cons hd rest ih =>
    intro h
    rcases List.mem_cons.mp h with h1 | h2
    · exact ⟨k, hd, h1⟩
    · exact ih h2

/-- A per-alert section always holds at least the "Started" widget. -/
theorem createAlertSection_widgets_ne_nil (n : Nat) (a : Alert) :
    (createAlertSection n a).widgets ≠ [] := by
  simp only [createAlertSection]
  intro h
  have h1 := (List.append_eq_nil.mp h).1
  have h2 := (List.append_eq_nil.mp h1).2
  exact absurd h2 (List.cons_ne_nil _ _)

/-- The Summary section always holds at least the Status widget. -/
theorem createSummarySection_widgets_ne_nil (p : AlertManagerPayload) :
    (createSummarySection p).widgets ≠ [] := by
  simp only [createSummarySection]
  intro h
  have h1 := (List.append_eq_nil.mp h).1
  have h2 := (List.append_eq_nil.mp h1).1
  exact absurd h2 (List.cons_ne_nil _ _)

/-- C9: the transformed document has exactly one card; its sections are
the Summary section first, then one section per alert in input order
with 1-indexed header `"Alert #<i>"`, then a trailing external-link
section exactly when `externalURL` is non-empty; and every section in
the card contains at least one widget. -/
theorem convertToGoogleChatFormat_card_structure (p : AlertManagerPayload) :
    (convertToGoogleChatFormat p).cards.length = 1 ∧
    (∀ c, (convertToGoogleChatFormat p).cards = [c] →
      (c.sections.head? = some (createSummarySection p) ∧
       (createSummarySection p).header = "Summary" ∧
       (∀ i a, p.alerts[i]? = some a →
         c.sections[i + 1]? = some (createAlertSection (i + 1) a)) ∧
       (∀ i a, p.alerts[i]? = some a →
         (createAlertSection (i + 1) a).header = "Alert #" ++ toString (i + 1)) ∧
       (p.externalURL = "" → c.sections.length = 1 + p.alerts.length) ∧
       (p.externalURL ≠ "" → c.sections.length = 1 + p.alerts.length + 1 ∧
         c.sections.getLast? = some (createExternalURLSection p.externalURL)) ∧
       (∀ s ∈ c.sections, s.widgets ≠ []))) := by
  refine ⟨rfl, fun c hc => ?_⟩
  simp only [convertToGoogleChatFormat, List.cons.injEq, and_true] at hc
  subst hc
  refine ⟨rfl, rfl, fun i a hia => ?_, fun i a hia => rfl, fun hext => ?_,
    fun hext => ⟨?_, ?_⟩, fun s hs => ?_⟩
  · have hlt : i < p.alerts.length := by
      obtain ⟨hlt, -⟩ := List.getElem?_eq_some_iff.mp hia
      exact hlt
    have hlt2 : i < (alertSectionsFrom 1 p.alerts).length := by
      rw [alertSectionsFrom_length]; exact hlt
    show (createSummarySection p ::
      (alertSectionsFrom 1 p.alerts ++ _))[i + 1]? = _
    rw [List.getElem?_cons_succ, List.getElem?_append, if_pos hlt2,
      alertSectionsFrom_getElem, hia, Nat.add_comm 1 i]
    rfl
  · show (createSummarySection p ::
      (alertSectionsFrom 1 p.alerts ++ _)).length = _
    simp [hext, alertSectionsFrom_length]
    omega
  · show (createSummarySection p ::
      (alertSectionsFrom 1 p.alerts ++ _)).length = _
    simp [hext, alertSectionsFrom_length]
    omega
  · show (createSummarySection p ::
      (alertSectionsFrom 1 p.alerts ++ _)).getLast? = _
    rw [if_pos hext, ← List.cons_append, List.getLast?_concat]
  · rcases List.mem_cons.mp hs with h1 | h24
    · subst h1
      exact createSummarySection_widgets_ne_nil p
    · rcases List.mem_append.mp h24 with h2 | h3
      · obtain ⟨n, a, rfl⟩ := mem_alertSectionsFrom h2
        exact createAlertSection_widgets_ne_nil n a
      · revert h3
        split
        · intro h3
          have hse : s = createExternalURLSection p.externalURL := by
            simpa using h3
          subst hse
          exact List.cons_ne_nil _ _
        · intro h3
          simp at h3

/-- C9 witness: the Scenario A message has one card whose second section
is the first alert's section, headed `"Alert #1"`. -/
theorem convertToGoogleChatFormat_card_structure_witness :
    (convertToGoogleChatFormat scenarioABatch).cards.length = 1 ∧
    (convertToGoogleChatFormat scenarioABatch).cards =
      [(convertToGoogleChatFormat scenarioABatch).cards.headI] ∧
    ((convertToGoogleChatFormat scenarioABatch).cards.headI.sections[1]? =
      some (createAlertSection 1 scenarioAAlert)) :=
  ⟨(convertToGoogleChatFormat_card_structure scenarioABatch).1, rfl,
    ((convertToGoogleChatFormat_card_structure scenarioABatch).2
      (convertToGoogleChatFormat scenarioABatch).cards.headI rfl).2.2.1 0
      scenarioAAlert rfl⟩

end GChat
